import Mathlib

/-!
Shallow embedding of `src/realtime/buffer/src/tcprequest.c` (function
`tcprequest`), the client side of the framed request/response exchange of
the FieldTrip realtime buffer.

The function is modelled as a pure Lean function from

  * the next fresh heap address `alloc0` (`malloc` hands out `alloc0`,
    `alloc0 + 1`, `alloc0 + 2` in allocation order),
  * the address `slotPtr` of the caller's `response_ptr` output slot,
  * the request `message_t` (a value, since the code only reads it),
  * a transport script: the sequence of results that successive
    `bufwrite`/`bufread` calls would report, in call order,

to an `Outcome` recording the `int` return value, the final contents of the
caller's output slot, the live response object (if any survives), the lists
of heap addresses allocated, freed and written through, the ordered trace of
I/O and validation steps performed, and the diagnostics printed to stderr.
-/

namespace Tcprequest

/-- Modelled from the spec: the supported protocol version is a compile-time
constant of the implementation (`VERSION` in `message.h`, which is not part
of the sources here); the spec fixes it to `1` in its scenarios. -/
def VERSION : Nat := 1

/-- Modelled from the spec: `messagedef_t` is a fixed-size binary header
(`version`, `command`, `bufsize`); its byte size is a positive compile-time
constant.  The concrete value 8 (two 16-bit fields plus one 32-bit field)
only plays the role of "the header's byte count" in comparisons. -/
def sizeofMessagedef : Nat := 8

/-- Modelled from the spec: the header of a framed message, `messagedef_t`
in `message.h` (not part of the sources here): protocol `version`, opaque
`command` code, and `bufsize`, the exact byte length of the payload. -/
structure Messagedef where
  version : Nat
  command : Nat
  bufsize : Nat
deriving DecidableEq, Repr

/-- Modelled from the spec: `message_t`, a header pointer plus a payload
pointer.  `buf = none` models a NULL payload pointer; `buf = some bs`
models a buffer holding the bytes `bs`. -/
structure Message where
  defn : Messagedef
  buf : Option (List Nat)
deriving DecidableEq, Repr

/-- Byte length of a message's payload buffer (0 for a NULL `buf`). -/
def msgPayloadLen (m : Message) : Nat :=
  match m.buf with
  | none => 0
  | some bs => bs.length

/-- One scripted transport interaction: `n` is the byte count the
`bufwrite`/`bufread` call reports; for a read, `hdr` is the header content
deposited when the destination is a `messagedef_t`, and `pay` the bytes
deposited when the destination is a payload buffer (the unused field of a
step is ignored by the consumer). -/
structure TStep where
  n : Nat
  hdr : Messagedef
  pay : List Nat
deriving DecidableEq, Repr

/-- Pop the next scripted transport result; an exhausted script behaves as
a dead transport that transfers 0 bytes. -/
def tnext : List TStep → TStep × List TStep
  | [] => (⟨0, ⟨0, 0, 0⟩, []⟩, [])
  | s :: rest => (s, rest)

/-- The observable steps of one call, in execution order:
storing the response pointer into the caller's slot, the two writes, the
header read, the version validation, and the payload read. -/
inductive Event where
  | storeSlot (p : Nat)
  | writeHdr (requested reported : Nat)
  | writeBuf (requested reported : Nat)
  | readHdr (requested reported : Nat)
  | checkVersion (expected actual : Nat)
  | readBuf (requested reported : Nat)
deriving DecidableEq, Repr

/-- The kind of an event, forgetting its byte counts. -/
inductive EKind where
  | kStore
  | kWriteHdr
  | kWriteBuf
  | kReadHdr
  | kCheckVersion
  | kReadBuf
deriving DecidableEq, Repr

/-- Forget an event's parameters. -/
def ekind : Event → EKind
  | .storeSlot _ => .kStore
  | .writeHdr _ _ => .kWriteHdr
  | .writeBuf _ _ => .kWriteBuf
  | .readHdr _ _ => .kReadHdr
  | .checkVersion _ _ => .kCheckVersion
  | .readBuf _ _ => .kReadBuf

/-- The canonical full order of steps in `tcprequest`. -/
def canonicalOrder : List EKind :=
  [.kStore, .kWriteHdr, .kWriteBuf, .kReadHdr, .kCheckVersion, .kReadBuf]

/-- The stderr diagnostics `tcprequest` can print, one constructor per
`fprintf` format in the source: `"write size = %d, should be %d"`,
`"packet size = %d, should be %d"`, `"incorrect version"`,
`"read size = %d, should be %d"`. -/
inductive Diag where
  | writeSize (n should : Nat)
  | packetSize (n should : Nat)
  | incorrectVersion
  | readSize (n should : Nat)
deriving DecidableEq, Repr

/-- Everything observable about one `tcprequest` call. -/
structure Outcome where
  ret : Int
  slot : Option Nat
  responseObj : Option Message
  allocs : List Nat
  frees : List Nat
  writes : List Nat
  events : List Event
  diags : List Diag
deriving DecidableEq, Repr

/-- The part of an `Outcome` the calling function actually receives:
the `int` return value and the final contents of its `response_ptr` slot. -/
def callerResult (o : Outcome) : Int × Option Nat := (o.ret, o.slot)

/-- Contents of a freshly `malloc`ed payload buffer of `size` bytes after a
read deposited the wire bytes `data` into its front (the uninitialised tail
is modelled as zero bytes); the buffer's length is always `size`. -/
def fillBuf (size : Nat) (data : List Nat) : List Nat :=
  (data ++ List.replicate size 0).take size

/-- The `cleanup:` label of `tcprequest`: free `response->def`, free
`response->buf` when one was allocated (the `FREE` macro skips NULL,
modelled from the spec's "release every resource it allocated"), free
`response`, null only the local copy of `response_ptr` (the caller's slot
keeps the value stored earlier), print the diagnostic, return -1. -/
def cleanupOutcome (respPtr defPtr : Nat) (bufPtr : Option Nat)
    (allocs writes : List Nat) (events : List Event) (d : Diag) : Outcome :=
  ⟨-1, some respPtr, none, allocs,
    [defPtr] ++ (match bufPtr with | some b => [b] | none => []) ++ [respPtr],
    writes, events, [d]⟩

/-- Shallow embedding of `tcprequest` from
`src/realtime/buffer/src/tcprequest.c`, following the source line by line:
allocate `response` and `response->def` (addresses `alloc0`, `alloc0 + 1`),
set `response->buf = NULL`, store `response` into `*response_ptr`, write
the request header, write the request payload, read the response header,
validate its version against `VERSION`, and when `bufsize > 0` allocate
the payload buffer (address `alloc0 + 2`) and read it; any failed check
jumps to `cleanupOutcome`. -/
def tcprequest (alloc0 slotPtr : Nat) (request : Message)
    (script0 : List TStep) : Outcome :=
  let respPtr := alloc0
  let defPtr := alloc0 + 1
  let allocs1 : List Nat := [respPtr, defPtr]
  let writes1 : List Nat := [respPtr, respPtr, slotPtr]
  let events1 : List Event := [Event.storeSlot respPtr]
  let s1 := (tnext script0).1
  let script1 := (tnext script0).2
  let events2 := events1 ++ [Event.writeHdr sizeofMessagedef s1.n]
  if s1.n ≠ sizeofMessagedef then
    cleanupOutcome respPtr defPtr none allocs1 writes1 events2
      (Diag.writeSize s1.n sizeofMessagedef)
  else
    let s2 := (tnext script1).1
    let script2 := (tnext script1).2
    let events3 := events2 ++ [Event.writeBuf request.defn.bufsize s2.n]
    if s2.n ≠ request.defn.bufsize then
      cleanupOutcome respPtr defPtr none allocs1 writes1 events3
        (Diag.writeSize s2.n request.defn.bufsize)
    else
      let s3 := (tnext script2).1
      let script3 := (tnext script2).2
      let writes2 := writes1 ++ [defPtr]
      let events4 := events3 ++ [Event.readHdr sizeofMessagedef s3.n]
      let rdef := s3.hdr
      if s3.n ≠ sizeofMessagedef then
        cleanupOutcome respPtr defPtr none allocs1 writes2 events4
          (Diag.packetSize s3.n sizeofMessagedef)
      else
        let events5 := events4 ++ [Event.checkVersion VERSION rdef.version]
        if rdef.version ≠ VERSION then
          cleanupOutcome respPtr defPtr none allocs1 writes2 events5
            Diag.incorrectVersion
        else
          if 0 < rdef.bufsize then
            let bufPtr := alloc0 + 2
            let allocs2 := allocs1 ++ [bufPtr]
            let writes3 := writes2 ++ [respPtr, bufPtr]
            let s4 := (tnext script3).1
            let events6 := events5 ++ [Event.readBuf rdef.bufsize s4.n]
            if s4.n ≠ rdef.bufsize then
              cleanupOutcome respPtr defPtr (some bufPtr) allocs2 writes3
                events6 (Diag.readSize s4.n rdef.bufsize)
            else
              ⟨0, some respPtr, some ⟨rdef, some (fillBuf rdef.bufsize s4.pay)⟩,
                allocs2, [], writes3, events6, []⟩
          else
            ⟨0, some respPtr, some ⟨rdef, none⟩,
              allocs1, [], writes2, events5, []⟩

/-- A header value whose content is irrelevant to the step using it. -/
def dummyHdr : Messagedef := ⟨0, 0, 0⟩

/-- A request with an empty payload. -/
def req0 : Message := ⟨⟨1, 1, 0⟩, none⟩

/-- A request with a 4-byte payload (spec Scenario A). -/
def req4 : Message := ⟨⟨1, 1, 4⟩, some [1, 2, 3, 4]⟩

/-- Transport script: the header write transfers 0 of the 8 bytes. -/
def shortWriteScript : List TStep := [⟨0, dummyHdr, []⟩]

/-- Transport script: exact writes, then a response header with version 2
and bufsize 100 (spec Scenario C, for a request with empty payload). -/
def versionScript : List TStep :=
  [⟨8, dummyHdr, []⟩, ⟨0, dummyHdr, []⟩, ⟨8, ⟨2, 0, 100⟩, []⟩]

/-- Transport script: exact transfers, response header version 1,
bufsize 0 (spec Scenario D, for a request with empty payload). -/
def okScript0 : List TStep :=
  [⟨8, dummyHdr, []⟩, ⟨0, dummyHdr, []⟩, ⟨8, ⟨1, 2, 0⟩, []⟩]

/-- Transport script: exact transfers up to a payload read that delivers
only 3 of the announced 5 bytes (for a request with empty payload). -/
def shortReadScript : List TStep :=
  [⟨8, dummyHdr, []⟩, ⟨0, dummyHdr, []⟩, ⟨8, ⟨1, 2, 5⟩, []⟩, ⟨3, dummyHdr, [7, 7, 7]⟩]

theorem fillBuf_length (size : Nat) (data : List Nat) :
    (fillBuf size data).length = size := by
  simp [fillBuf]

/-- C1: the claim fails on the code.  On a failing call (here: the header
write transfers 0 of 8 bytes) `tcprequest` frees the response object at
address 0, but the caller's `*response_ptr` slot still holds that address:
the caller-visible slot does refer to the released response object. -/
theorem c1_failure_leaves_dangling_slot :
    (tcprequest 0 100 req0 shortWriteScript).ret = -1 ∧
    (tcprequest 0 100 req0 shortWriteScript).slot = some 0 ∧
    0 ∈ (tcprequest 0 100 req0 shortWriteScript).frees ∧
    (tcprequest 0 100 req0 shortWriteScript).responseObj = none := by
  decide

/-- C2 counterexample: a short header write and a version mismatch are
distinct failure causes (their step traces and their stderr diagnostics
differ), yet the caller receives the identical result `(-1, slot)` from
both: failures are not surfaced as a typed result distinguishing
`ShortWrite`, `ShortRead` and `VersionMismatch`. -/
theorem c2_distinct_failures_indistinguishable_to_caller :
    callerResult (tcprequest 0 100 req0 shortWriteScript) =
      callerResult (tcprequest 0 100 req0 versionScript) ∧
    (tcprequest 0 100 req0 shortWriteScript).events ≠
      (tcprequest 0 100 req0 versionScript).events ∧
    (tcprequest 0 100 req0 shortWriteScript).diags ≠
      (tcprequest 0 100 req0 versionScript).diags := by
  decide

/-- C2 amended: every call returns 0 or -1; every failure returns -1 with
the caller's slot still holding the response address and exactly one stderr
diagnostic (the only place carrying the expected versus actual counts),
and a successful call prints no diagnostic.  The caller-visible result
itself carries no error kind. -/
theorem c2_failure_result_uniform_with_single_diag
    (alloc0 slotPtr : Nat) (request : Message) (script0 : List TStep)
    (o : Outcome) (ho : o = tcprequest alloc0 slotPtr request script0) :
    (o.ret = 0 ∨ o.ret = -1) ∧
    (o.ret = -1 → callerResult o = (-1, some alloc0) ∧ ∃ d, o.diags = [d]) ∧
    (o.ret = 0 → o.diags = []) := by
  subst ho
  simp only [tcprequest, cleanupOutcome]
  repeat' split
  all_goals simp [callerResult]

/-- C3: when both writes and the header read transfer their exact byte
counts but the response header's version differs from `VERSION`,
`tcprequest` fails with the version diagnostic and no payload read step
appears in the trace, whatever the advertised `bufsize`. -/
theorem c3_version_mismatch_blocks_payload_read
    (alloc0 slotPtr : Nat) (request : Message) (script0 : List TStep)
    (o : Outcome) (ho : o = tcprequest alloc0 slotPtr request script0)
    (h1 : (tnext script0).1.n = sizeofMessagedef)
    (h2 : (tnext (tnext script0).2).1.n = request.defn.bufsize)
    (h3 : (tnext (tnext (tnext script0).2).2).1.n = sizeofMessagedef)
    (hv : (tnext (tnext (tnext script0).2).2).1.hdr.version ≠ VERSION) :
    o.ret = -1 ∧ o.diags = [Diag.incorrectVersion] ∧
    EKind.kReadBuf ∉ List.map ekind o.events := by
  subst ho
  simp [tcprequest, cleanupOutcome, h1, h2, h3, hv, ekind]

/-- C3 witness: spec Scenario C, response header version 2, bufsize 100. -/
theorem c3_version_mismatch_blocks_payload_read_witness :
    (tcprequest 0 100 req0 versionScript).ret = -1 ∧
    (tcprequest 0 100 req0 versionScript).diags = [Diag.incorrectVersion] ∧
    EKind.kReadBuf ∉ List.map ekind (tcprequest 0 100 req0 versionScript).events :=
  c3_version_mismatch_blocks_payload_read 0 100 req0 versionScript _ rfl
    (by decide) (by decide) (by decide) (by decide)

/-- C2 amended witness: the short-header-write script returns -1 with the
slot holding address 0 and a single diagnostic. -/
theorem c2_failure_result_uniform_with_single_diag_witness :
    ((tcprequest 0 100 req0 shortWriteScript).ret = 0 ∨
      (tcprequest 0 100 req0 shortWriteScript).ret = -1) ∧
    ((tcprequest 0 100 req0 shortWriteScript).ret = -1 →
      callerResult (tcprequest 0 100 req0 shortWriteScript) = (-1, some 0) ∧
      ∃ d, (tcprequest 0 100 req0 shortWriteScript).diags = [d]) ∧
    ((tcprequest 0 100 req0 shortWriteScript).ret = 0 →
      (tcprequest 0 100 req0 shortWriteScript).diags = []) :=
  c2_failure_result_uniform_with_single_diag 0 100 req0 shortWriteScript _ rfl

/-- C4: for a request satisfying the payload-length invariant and a
transport that performs every write and read exactly and answers with a
header carrying the supported version, `tcprequest` returns 0 and the
response object's payload length equals its header's `bufsize`, with the
header's version equal to `VERSION`. -/
theorem c4_exact_transport_success
    (alloc0 slotPtr : Nat) (request : Message) (hdr rh ph : Messagedef)
    (w1 w2 pay : List Nat) (rest : List TStep)
    (hreq : msgPayloadLen request = request.defn.bufsize)
    (hv : hdr.version = VERSION)
    (o : Outcome)
    (ho : o = tcprequest alloc0 slotPtr request
      (⟨sizeofMessagedef, rh, w1⟩ :: ⟨request.defn.bufsize, ph, w2⟩ ::
        ⟨sizeofMessagedef, hdr, pay⟩ :: ⟨hdr.bufsize, rh, pay⟩ :: rest)) :
    o.ret = 0 ∧ o.responseObj ≠ none ∧
    (∀ m, o.responseObj = some m →
      msgPayloadLen m = m.defn.bufsize ∧ m.defn.version = VERSION) := by
  subst ho
  by_cases hb : 0 < hdr.bufsize
  · simp [tcprequest, tnext, hv, hb, msgPayloadLen, fillBuf_length]
  · simp [tcprequest, tnext, hv, hb, msgPayloadLen]
    omega

/-- C4 witness: spec Scenario A (request with 4 payload bytes, response
with 4 payload bytes, both sides at version 1). -/
theorem c4_exact_transport_success_witness :
    (tcprequest 0 100 req4
      (⟨sizeofMessagedef, dummyHdr, []⟩ :: ⟨req4.defn.bufsize, dummyHdr, []⟩ ::
        ⟨sizeofMessagedef, ⟨1, 2, 4⟩, [9, 9, 9, 9]⟩ ::
        ⟨(⟨1, 2, 4⟩ : Messagedef).bufsize, dummyHdr, [9, 9, 9, 9]⟩ :: [])).ret = 0 ∧
    msgPayloadLen ⟨⟨1, 2, 4⟩, some [9, 9, 9, 9]⟩ =
      (Message.mk ⟨1, 2, 4⟩ (some [9, 9, 9, 9])).defn.bufsize ∧
    (Message.mk ⟨1, 2, 4⟩ (some [9, 9, 9, 9])).defn.version = VERSION := by
  have h := c4_exact_transport_success 0 100 req4 ⟨1, 2, 4⟩ dummyHdr dummyHdr
    [] [] [9, 9, 9, 9] [] (by decide) (by decide) _ rfl
  exact ⟨h.1, h.2.2 ⟨⟨1, 2, 4⟩, some [9, 9, 9, 9]⟩ (by decide)⟩

/-- C5: whenever `tcprequest` fails, an address was allocated during the
call exactly when it was also freed during the call: the response struct,
the header buffer, and the payload buffer (when one was allocated) are all
released, and nothing else is freed. -/
theorem c5_failure_frees_every_allocation
    (alloc0 slotPtr p : Nat) (request : Message) (script0 : List TStep)
    (o : Outcome) (ho : o = tcprequest alloc0 slotPtr request script0)
    (hfail : o.ret = -1) :
    p ∈ o.allocs ↔ p ∈ o.frees := by
  subst ho
  simp only [tcprequest, cleanupOutcome] at hfail ⊢
  repeat' split at hfail
  all_goals simp_all
  all_goals tauto

/-- C5 witness: short payload read, all three allocations freed. -/
theorem c5_failure_frees_every_allocation_witness :
    2 ∈ (tcprequest 0 100 req0 shortReadScript).allocs ↔
      2 ∈ (tcprequest 0 100 req0 shortReadScript).frees :=
  c5_failure_frees_every_allocation 0 100 2 req0 shortReadScript _ rfl (by decide)

/-- C6: exact writes and header read, matching version, and `bufsize = 0`
in the response header: the call succeeds, no payload read step appears in
the trace, and the returned payload is empty. -/
theorem c6_zero_bufsize_empty_payload
    (alloc0 slotPtr : Nat) (request : Message) (script0 : List TStep)
    (o : Outcome) (ho : o = tcprequest alloc0 slotPtr request script0)
    (h1 : (tnext script0).1.n = sizeofMessagedef)
    (h2 : (tnext (tnext script0).2).1.n = request.defn.bufsize)
    (h3 : (tnext (tnext (tnext script0).2).2).1.n = sizeofMessagedef)
    (hv : (tnext (tnext (tnext script0).2).2).1.hdr.version = VERSION)
    (hb : (tnext (tnext (tnext script0).2).2).1.hdr.bufsize = 0) :
    o.ret = 0 ∧ EKind.kReadBuf ∉ List.map ekind o.events ∧
    o.responseObj ≠ none ∧
    (∀ m, o.responseObj = some m → msgPayloadLen m = 0) := by
  subst ho
  simp [tcprequest, h1, h2, h3, hv, hb, ekind, msgPayloadLen]

/-- C6 witness: spec Scenario D. -/
theorem c6_zero_bufsize_empty_payload_witness :
    (tcprequest 0 100 req0 okScript0).ret = 0 ∧
    EKind.kReadBuf ∉ List.map ekind (tcprequest 0 100 req0 okScript0).events ∧
    msgPayloadLen ⟨⟨1, 2, 0⟩, none⟩ = 0 := by
  have h := c6_zero_bufsize_empty_payload 0 100 req0 okScript0 _ rfl
    (by decide) (by decide) (by decide) (by decide) (by decide)
  exact ⟨h.1, h.2.1, h.2.2.2 ⟨⟨1, 2, 0⟩, none⟩ (by decide)⟩

/-- C7: every heap address `tcprequest` frees or writes through is either
the caller's output slot or one of the fresh response allocations
(`alloc0`, `alloc0 + 1`, `alloc0 + 2`); hence any address `p` of the
caller-owned request object (allocated earlier, so `p < alloc0`, and
distinct from the output slot) is neither freed nor written: the request's
header and payload are untouched, whatever the outcome. -/
theorem c7_request_locations_untouched
    (alloc0 slotPtr p : Nat) (request : Message) (script0 : List TStep)
    (o : Outcome) (ho : o = tcprequest alloc0 slotPtr request script0)
    (hp : p < alloc0) (hs : p ≠ slotPtr) :
    p ∉ o.frees ∧ p ∉ o.writes := by
  subst ho
  simp only [tcprequest, cleanupOutcome]
  repeat' split
  all_goals simp_all
  all_goals omega

/-- C7 witness: a request address below the fresh-allocation base is
neither freed nor written on a failing call. -/
theorem c7_request_locations_untouched_witness :
    50 ∉ (tcprequest 100 90 req0 shortWriteScript).frees ∧
    50 ∉ (tcprequest 100 90 req0 shortWriteScript).writes :=
  c7_request_locations_untouched 100 90 50 req0 shortWriteScript _ rfl
    (by decide) (by decide)

/-- C8: the trace of any call is an initial segment of the canonical step
order (slot store, header write, payload write, header read, version
check, payload read); a successful call runs either all six steps or all
but the payload read; and a failure at any of the five steps stops the
call exactly there with return value -1: a short header write leaves only
the header-write step in the trace (no payload write is ever attempted), a
short payload write leaves nothing after the payload-write step, a short
header read nothing after the header-read step, a version mismatch nothing
after the version check, and a short payload read ends the trace at the
payload-read step. -/
theorem c8_steps_in_canonical_order
    (alloc0 slotPtr : Nat) (request : Message) (script0 : List TStep)
    (o : Outcome) (ho : o = tcprequest alloc0 slotPtr request script0) :
    (∃ k, List.map ekind o.events = List.take k canonicalOrder) ∧
    (o.ret = 0 → List.map ekind o.events = List.take 5 canonicalOrder ∨
      List.map ekind o.events = canonicalOrder) ∧
    ((tnext script0).1.n ≠ sizeofMessagedef →
      List.map ekind o.events = List.take 2 canonicalOrder ∧ o.ret = -1) ∧
    ((tnext script0).1.n = sizeofMessagedef ∧
      (tnext (tnext script0).2).1.n ≠ request.defn.bufsize →
      List.map ekind o.events = List.take 3 canonicalOrder ∧ o.ret = -1) ∧
    ((tnext script0).1.n = sizeofMessagedef ∧
      (tnext (tnext script0).2).1.n = request.defn.bufsize ∧
      (tnext (tnext (tnext script0).2).2).1.n ≠ sizeofMessagedef →
      List.map ekind o.events = List.take 4 canonicalOrder ∧ o.ret = -1) ∧
    ((tnext script0).1.n = sizeofMessagedef ∧
      (tnext (tnext script0).2).1.n = request.defn.bufsize ∧
      (tnext (tnext (tnext script0).2).2).1.n = sizeofMessagedef ∧
      (tnext (tnext (tnext script0).2).2).1.hdr.version ≠ VERSION →
      List.map ekind o.events = List.take 5 canonicalOrder ∧ o.ret = -1) ∧
    ((tnext script0).1.n = sizeofMessagedef ∧
      (tnext (tnext script0).2).1.n = request.defn.bufsize ∧
      (tnext (tnext (tnext script0).2).2).1.n = sizeofMessagedef ∧
      (tnext (tnext (tnext script0).2).2).1.hdr.version = VERSION ∧
      0 < (tnext (tnext (tnext script0).2).2).1.hdr.bufsize ∧
      (tnext (tnext (tnext (tnext script0).2).2).2).1.n ≠
        (tnext (tnext (tnext script0).2).2).1.hdr.bufsize →
      List.map ekind o.events = canonicalOrder ∧ o.ret = -1) := by
  subst ho
  by_cases hc1 : (tnext script0).1.n = sizeofMessagedef
  · by_cases hc2 : (tnext (tnext script0).2).1.n = request.defn.bufsize
    · by_cases hc3 : (tnext (tnext (tnext script0).2).2).1.n = sizeofMessagedef
      · by_cases hc4 : (tnext (tnext (tnext script0).2).2).1.hdr.version = VERSION
        · by_cases hc5 : 0 < (tnext (tnext (tnext script0).2).2).1.hdr.bufsize
          · by_cases hc6 : (tnext (tnext (tnext (tnext script0).2).2).2).1.n =
                (tnext (tnext (tnext script0).2).2).1.hdr.bufsize
            · refine ⟨⟨6, ?_⟩, ?_, ?_, ?_, ?_, ?_, ?_⟩ <;>
                simp [tcprequest, cleanupOutcome, hc1, hc2, hc3, hc4, hc5, hc6,
                  ekind, canonicalOrder]
            · refine ⟨⟨6, ?_⟩, ?_, ?_, ?_, ?_, ?_, ?_⟩ <;>
                simp [tcprequest, cleanupOutcome, hc1, hc2, hc3, hc4, hc5, hc6,
                  ekind, canonicalOrder]
          · refine ⟨⟨5, ?_⟩, ?_, ?_, ?_, ?_, ?_, ?_⟩ <;>
              simp [tcprequest, cleanupOutcome, hc1, hc2, hc3, hc4, hc5,
                ekind, canonicalOrder]
        · refine ⟨⟨5, ?_⟩, ?_, ?_, ?_, ?_, ?_, ?_⟩ <;>
            simp [tcprequest, cleanupOutcome, hc1, hc2, hc3, hc4,
              ekind, canonicalOrder]
      · refine ⟨⟨4, ?_⟩, ?_, ?_, ?_, ?_, ?_, ?_⟩ <;>
          simp [tcprequest, cleanupOutcome, hc1, hc2, hc3, ekind, canonicalOrder]
    · refine ⟨⟨3, ?_⟩, ?_, ?_, ?_, ?_, ?_, ?_⟩ <;>
        simp [tcprequest, cleanupOutcome, hc1, hc2, ekind, canonicalOrder]
  · refine ⟨⟨2, ?_⟩, ?_, ?_, ?_, ?_, ?_, ?_⟩ <;>
      simp [tcprequest, cleanupOutcome, hc1, ekind, canonicalOrder]

/-- C8 witness: spec Scenario B, a half-size header write stops the call
right after the header-write step, and a short payload read ends the trace
at the payload-read step; both fail with -1. -/
theorem c8_steps_in_canonical_order_witness :
    List.map ekind (tcprequest 0 100 req0 [⟨4, dummyHdr, []⟩]).events =
      List.take 2 canonicalOrder ∧
    (tcprequest 0 100 req0 [⟨4, dummyHdr, []⟩]).ret = -1 ∧
    List.map ekind (tcprequest 0 100 req0 shortReadScript).events =
      canonicalOrder ∧
    (tcprequest 0 100 req0 shortReadScript).ret = -1 := by
  have h1 := (c8_steps_in_canonical_order 0 100 req0 [⟨4, dummyHdr, []⟩]
    _ rfl).2.2.1 (by decide)
  have h2 := (c8_steps_in_canonical_order 0 100 req0 shortReadScript
    _ rfl).2.2.2.2.2.2 (by decide)
  exact ⟨h1.1, h1.2, h2.1, h2.2⟩

/-- C9: on every successful call the response's payload pointer is
non-NULL exactly when the response header's `bufsize` is positive; a
zero-length payload is the NULL pointer, never an allocated empty
buffer. -/
theorem c9_success_buf_iff_positive_bufsize
    (alloc0 slotPtr : Nat) (request : Message) (script0 : List TStep)
    (o : Outcome) (ho : o = tcprequest alloc0 slotPtr request script0)
    (hok : o.ret = 0) :
    o.responseObj ≠ none ∧
    (∀ m, o.responseObj = some m → (m.buf ≠ none ↔ 0 < m.defn.bufsize)) := by
  subst ho
  simp only [tcprequest, cleanupOutcome] at hok ⊢
  repeat' split at hok
  all_goals simp_all

/-- C9 witness: spec Scenario D's zero-payload success has a NULL payload
pointer and `bufsize = 0`. -/
theorem c9_success_buf_iff_positive_bufsize_witness :
    ((⟨⟨1, 2, 0⟩, none⟩ : Message).buf ≠ none ↔
      0 < (⟨⟨1, 2, 0⟩, none⟩ : Message).defn.bufsize) :=
  (c9_success_buf_iff_positive_bufsize 0 100 req0 okScript0 _ rfl
    (by decide)).2 ⟨⟨1, 2, 0⟩, none⟩ (by decide)

/-- C10: on every call the first recorded step stores the fresh response
address into the caller's `response_ptr` slot, before any transport step;
the slot still holds that address when the call returns, and on a failing
call that very address is among the freed ones (`response_ptr = NULL` in
the cleanup only clears the local copy of the parameter). -/
theorem c10_slot_written_first_and_retained
    (alloc0 slotPtr : Nat) (request : Message) (script0 : List TStep)
    (o : Outcome) (ho : o = tcprequest alloc0 slotPtr request script0) :
    List.head? o.events = some (Event.storeSlot alloc0) ∧
    o.slot = some alloc0 ∧
    (o.ret = -1 → alloc0 ∈ o.frees) := by
  subst ho
  simp only [tcprequest, cleanupOutcome]
  repeat' split
  all_goals simp

/-- C10 witness: on the short-header-write failure the slot was stored
first, is still set, and its address is among the freed ones. -/
theorem c10_slot_written_first_and_retained_witness :
    List.head? (tcprequest 0 100 req0 shortWriteScript).events =
      some (Event.storeSlot 0) ∧
    (tcprequest 0 100 req0 shortWriteScript).slot = some 0 ∧
    0 ∈ (tcprequest 0 100 req0 shortWriteScript).frees := by
  have h := c10_slot_written_first_and_retained 0 100 req0 shortWriteScript _ rfl
  exact ⟨h.1, h.2.1, h.2.2 (by decide)⟩

end Tcprequest
